import Mathlib

/-!
# Verification of the voice-widget session core

Shallow embedding of `src/frontend/voice-widget/src/App.jsx`: the session
state machine, the playback buffer (MediaSource/SourceBuffer) discipline,
the microphone uplink (WebSocket + MediaRecorder), the event downlink
(EventSource/SSE) with its reconnect logic, and the transcript ledger.

Modelling conventions:
* Per the repository's concurrency model (single-threaded, event-driven,
  serialized callbacks), the whole app is a state `AppState` stepped by
  discrete events `AppEvent`.  React `useState` setters and `useRef`
  mutations are modelled as immediate field updates on this state.
* Awaited host operations (`setMicrophoneEnabled`, token fetch, room join,
  the synchronous throw of `SourceBuffer.appendBuffer`) are resolved by
  Boolean environment parameters carried on the triggering event.
* `window.atob` on an undecodable base64 string throws; this outcome is the
  `B64.bad` case.  A successfully decoded payload is `B64.ok bytes`.
* Ghost instrumentation fields (`violations`, `appendAttempts`, `opens`,
  `openedIds`, `pendingReconnects`, `pendingWsClose`, `pendingRecStop`)
  record observable behaviour (appends issued while the underlying buffer
  is busy, invocations of `appendAudioChunk`, EventSource creations and the
  id they carry, scheduled timers/callbacks); they never influence control
  flow of the embedded code.
-/

/-- Speaker tag of a transcript entry: the JS strings `'You'` and `'AI'`. -/
inductive Speaker
  | you
  | ai
deriving DecidableEq, Repr

/-- One entry of the `conversation` ledger: `{ speaker, text }`. -/
structure Entry where
  speaker : Speaker
  text : String
deriving DecidableEq, Repr

/-- Ready state of the SSE `EventSource`. -/
inductive ESReady
  | connecting
  | opened
  | closed
deriving DecidableEq, Repr

/-- The `EventSource` held in `eventSourceRef`: the `conversation_id` its URL
carries, and its ready state. -/
structure ESState where
  id : Nat
  ready : ESReady
deriving DecidableEq, Repr

/-- Ready state of the audio-uplink `WebSocket` held in `wsRef`. -/
inductive WSReady
  | connecting
  | opened
deriving DecidableEq, Repr

/-- State of the `MediaRecorder` held in `mediaRecorderRef`. -/
inductive RecState
  | inactive
  | recording
deriving DecidableEq, Repr

/-- Result of decoding a base64 `audio_chunk` field with `window.atob`:
either the decoded bytes, or a synchronous `InvalidCharacterError`. -/
inductive B64
  | ok (bytes : List Nat)
  | bad
deriving DecidableEq, Repr

/-- A downlink SSE message, after the attempted `JSON.parse` of the raw data.
`malformed` is a payload on which `JSON.parse` throws; `unrecognized` is
valid JSON whose `type` matches no handler branch. -/
inductive SSEData
  | malformed
  | unrecognized
  | sttUpdate (transcript : String)
  | finalTranscript (text : String)
  | aiThinking (status : Bool)
  | audioChunk (audio : B64) (llm : Option String) (fail : List Bool)
deriving DecidableEq, Repr

/-- Environment of one `handleConnect` execution: the freshly generated
conversation id, whether the autoplay-unblock block (AudioContext work and
`initMediaSource`) runs without throwing, and whether the token fetch, the
LiveKit room join and the initial `setMicrophoneEnabled(false)` all
succeed. -/
structure ConnectEnv where
  newId : Nat
  autoplayOk : Bool
  joinOk : Bool
deriving DecidableEq, Repr

/-- The serialized application state: React state variables, refs, host
handles and ghost instrumentation. -/
structure AppState where
  -- React state variables
  isConnected : Bool
  connectionMessage : String
  conversation : List Entry
  liveTranscription : String
  isAiThinking : Bool
  isAudioPlaying : Bool
  isMicrophoneActive : Bool
  conversationId : Option Nat
  -- refs / host handles
  wsState : Option WSReady
  mediaRecorder : Option RecState
  eventSource : Option ESState
  mediaSourcePresent : Bool
  hasSourceBuffer : Bool
  sourceBufferUpdating : Bool
  audioQueue : List (List Nat)
  appendingInProgress : Bool
  isTogglingMic : Bool
  roomConnected : Bool
  roomMicEnabled : Bool
  -- pending host callbacks (a close()/stop() was issued, the event will fire)
  pendingWsClose : Bool
  pendingRecStop : Bool
  pendingReconnects : Nat
  -- ghost instrumentation
  violations : Nat
  appendAttempts : Nat
  opens : Nat
  openedIds : List Nat
deriving DecidableEq, Repr

/-- Index (from the front) of the last list entry satisfying the speaker
test; embeds `Array.prototype.findLast` together with the fact that the
subsequent replacement applies exactly at that element (the JS code replaces
via reference identity of the found object). -/
def lastIdxOfSpeaker (sp : Speaker) : List Entry → Option Nat
  | [] => none
  | e :: es =>
    match lastIdxOfSpeaker sp es with
    | some i => some (i + 1)
    | none => if e.speaker = sp then some 0 else none

/-- The host `SourceBuffer.appendBuffer` call.  Issuing it while the buffer
is already updating is the undefined behaviour the single-writer primitive
forbids; the ghost `violations` counter records any such issue. -/
def issueAppend (s : AppState) : AppState :=
  { s with sourceBufferUpdating := true
         , violations := if s.sourceBufferUpdating then s.violations + 1 else s.violations }

/-- Embeds `appendAudioChunk` (App.jsx 56-77).  `fail` is the oracle telling,
for each attempted `appendBuffer`, whether the host throws synchronously; on
a synchronous throw the flag is cleared and the next chunk is tried. -/
def appendAudioChunk : List Bool → AppState → AppState
  | [], s =>
    let t := { s with appendAttempts := s.appendAttempts + 1 }
    if t.hasSourceBuffer = false ∨ t.audioQueue = [] ∨ t.appendingInProgress = true then t
    else if t.sourceBufferUpdating = true then t
    else
      match t.audioQueue with
      | [] => t
      | _ :: rest => issueAppend { t with audioQueue := rest, appendingInProgress := true }
  | f :: fs, s =>
    let t := { s with appendAttempts := s.appendAttempts + 1 }
    if t.hasSourceBuffer = false ∨ t.audioQueue = [] ∨ t.appendingInProgress = true then t
    else if t.sourceBufferUpdating = true then t
    else
      match t.audioQueue with
      | [] => t
      | _ :: rest =>
        if f = true then
          appendAudioChunk fs { t with audioQueue := rest, appendingInProgress := false }
        else issueAppend { t with audioQueue := rest, appendingInProgress := true }

/-- Embeds `onSourceBufferUpdateEnd` (App.jsx 79-89); the host has already
cleared `updating` when `updateend` fires. -/
def onSourceBufferUpdateEnd (fail : List Bool) (s : AppState) : AppState :=
  let t := { s with sourceBufferUpdating := false, appendingInProgress := false }
  if t.audioQueue = [] then t else appendAudioChunk fail t

/-- JS truthiness of the optional `llm_response_text` field: absent and the
empty string are both falsy. -/
def truthyText : Option String → Bool
  | none => false
  | some t => t ≠ ""

/-- Embeds the `setConversation` updater of the `audio_chunk` handler
(App.jsx 394-409). -/
def updateAIConversation (conv : List Entry) (llm : Option String) : List Entry :=
  match lastIdxOfSpeaker .ai conv with
  | some i =>
      if truthyText llm = true ∧ some (conv.getD i ⟨.ai, ""⟩).text ≠ llm then
        conv.set i ⟨.ai, llm.getD ""⟩
      else conv
  | none =>
      if truthyText llm = true then conv ++ [⟨.ai, llm.getD ""⟩] else conv

/-- Embeds the SSE `onmessage` handler (App.jsx 355-429).  The surrounding
try/catch makes the handler total: a `JSON.parse` throw (`malformed`) and an
`atob` throw (`B64.bad`, after the preceding state updates have been
applied) are both swallowed.  This variant reads the current
`isAudioPlaying` (stt guard, App.jsx 361) and `liveTranscription`
(final-transcript comparison, App.jsx 372); in the program the `onmessage`
closure reads the values captured at `EventSource` creation — modelled by
`processSSEMessageCap`.  The claims proved over this variant hold for
either reading. -/
def processSSEMessage (d : SSEData) (s : AppState) : AppState :=
  match d with
  | .malformed => s
  | .unrecognized => s
  | .sttUpdate t =>
      if s.isAudioPlaying = true then s
      else { s with liveTranscription := t, isAiThinking := true }
  | .finalTranscript t =>
      let conv :=
        match lastIdxOfSpeaker .you s.conversation with
        | some i =>
            if (s.conversation.getD i ⟨.you, ""⟩).text = s.liveTranscription
               ∧ s.liveTranscription ≠ "" then
              s.conversation.set i ⟨.you, t⟩
            else s.conversation ++ [⟨.you, t⟩]
        | none => s.conversation ++ [⟨.you, t⟩]
      { s with conversation := conv, liveTranscription := "", isAiThinking := true }
  | .aiThinking b => { s with isAiThinking := b }
  | .audioChunk audio llm fail =>
      let t := { s with isAiThinking := false, liveTranscription := "" }
      let t := { t with conversation := updateAIConversation t.conversation llm }
      match audio with
      | .bad => t
      | .ok bytes =>
          if bytes.length > 0 then
            let t := { t with audioQueue := t.audioQueue ++ [bytes] }
            if t.hasSourceBuffer = true ∧ t.sourceBufferUpdating = false then
              appendAudioChunk fail t
            else t
          else t

/-- Embeds `stopMicrophoneStreams` (App.jsx 137-161).  Stopping a recording
recorder or closing an open WebSocket schedules the corresponding host
callback (`onstop` resp. `onclose`) even though the refs are nulled. -/
def stopMicrophoneStreams (s : AppState) : AppState :=
  let t := if s.mediaRecorder = some .recording then { s with pendingRecStop := true } else s
  let t := if t.wsState = some .opened then { t with pendingWsClose := true } else t
  { t with mediaRecorder := none, wsState := none
         , liveTranscription := "", isMicrophoneActive := false }

/-- Embeds `startAudioStreamToSTT` (App.jsx 163-224).  `setupOk` tells
whether the `MediaRecorder`/`WebSocket` construction succeeds; on success a
connecting WebSocket and an inactive recorder exist and the toggle lock
stays held until a WebSocket callback releases it. -/
def startAudioStreamToSTT (setupOk : Bool) (s : AppState) : AppState :=
  let t := stopMicrophoneStreams s
  if t.conversationId = none then
    { t with connectionMessage := "Error: Missing conversation ID. Please reconnect."
           , isTogglingMic := false }
  else if setupOk = true then
    { t with mediaRecorder := some .inactive, wsState := some .connecting }
  else
    let t := stopMicrophoneStreams { t with connectionMessage := "Failed to start microphone: " }
    { t with isTogglingMic := false }

/-- Embeds `toggleMicrophone` (App.jsx 229-275).  `micOk` is the outcome of
the awaited `room.localParticipant.setMicrophoneEnabled` call (including
the track-availability check); `setupOk` is passed on to
`startAudioStreamToSTT`. -/
def toggleMicrophone (micOk setupOk : Bool) (s : AppState) : AppState :=
  if s.isTogglingMic = true then s
  else
    let t := { s with isTogglingMic := true }
    if t.isConnected = false then
      { t with isTogglingMic := false
             , connectionMessage := "Not connected to AI. Please connect first." }
    else if t.isMicrophoneActive = true then
      if micOk = true then
        stopMicrophoneStreams { t with roomMicEnabled := false
                                     , connectionMessage := "Microphone stopping..." }
      else
        stopMicrophoneStreams { t with connectionMessage := "Failed to stop microphone: " }
    else
      if micOk = true then
        startAudioStreamToSTT setupOk { t with roomMicEnabled := true }
      else
        stopMicrophoneStreams { t with connectionMessage := "Failed to start microphone: " }

/-- Embeds the WebSocket `onopen` handler (App.jsx 181-189). -/
def wsOnOpen (s : AppState) : AppState :=
  { s with wsState := some .opened, mediaRecorder := some .recording
         , isMicrophoneActive := true
         , connectionMessage := "Microphone active. Speak now..."
         , isAiThinking := false, isAudioPlaying := false
         , isTogglingMic := false }

/-- Embeds the WebSocket `onerror` handler (App.jsx 191-196). -/
def wsOnError (s : AppState) : AppState :=
  let t := stopMicrophoneStreams
    { s with connectionMessage := "Microphone send error. Try reconnecting." }
  { t with isTogglingMic := false }

/-- Embeds the WebSocket `onclose` handler (App.jsx 198-203). -/
def wsOnClose (s : AppState) : AppState :=
  let t := stopMicrophoneStreams s
  { t with connectionMessage := "Microphone disconnected.", isTogglingMic := false }

/-- Embeds the MediaRecorder `onstop` handler (App.jsx 211-216). -/
def onRecorderStop (s : AppState) : AppState :=
  { s with connectionMessage := "Microphone stopped. AI is thinking..."
         , isAiThinking := true }

/-- Creation of a new `EventSource` for the given conversation id, with
ghost logging of the creation and of the id carried in its URL. -/
def openES (cid : Nat) (s : AppState) : AppState :=
  { s with eventSource := some ⟨cid, .connecting⟩
         , opens := s.opens + 1, openedIds := s.openedIds ++ [cid] }

/-- Embeds `startResponseStream` without its handlers (App.jsx 331-353):
the redundant-open protection and the EventSource creation. -/
def startResponseStream (s : AppState) : AppState :=
  match s.conversationId with
  | none => s
  | some cid =>
    match s.eventSource with
    | some es =>
        if es.id ≠ cid ∧ es.ready = .opened then openES cid s
        else if es.ready = .connecting ∨ es.ready = .opened then s
        else openES cid s
    | none => openES cid s

/-- Embeds the SSE `onerror` handler (App.jsx 430-444): while the session is
connected it schedules one reconnect attempt after the fixed 1s backoff
(ghost counter `pendingReconnects`), otherwise it closes permanently.
This variant reads the current `isConnected`/`conversationId`; the
program's `onerror` closure reads the values captured at `EventSource`
creation — modelled by `sseOnErrorCap`. -/
def sseOnError (s : AppState) : AppState :=
  if s.isConnected = true ∧ s.conversationId.isSome = true then
    { s with pendingReconnects := s.pendingReconnects + 1 }
  else
    { s with eventSource := none
           , connectionMessage := "SSE connection lost. Please reconnect."
           , isAiThinking := false, isAudioPlaying := false }

/-- Embeds `initMediaSource` (App.jsx 92-131), with the source-buffer
attachment of `onsourceopen` folded in. -/
def initMediaSource (s : AppState) : AppState :=
  if s.mediaSourcePresent = true then s
  else { s with mediaSourcePresent := true, hasSourceBuffer := true }

/-- Embeds `handleConnect` (App.jsx 542-621) together with the
`useEffect` on `conversationId` (App.jsx 491-495) that opens the SSE
stream as soon as the new id is set — which happens before the try block
that can fail. -/
def handleConnect (env : ConnectEnv) (s : AppState) : AppState :=
  if s.isTogglingMic = true then s
  else
    let t := { s with isTogglingMic := true, connectionMessage := "Connecting..."
                    , conversationId := some env.newId }
    let t := startResponseStream t
    let t :=
      if env.autoplayOk = true then initMediaSource t
      else { t with connectionMessage :=
               "Autoplay blocked. Click connect again or interact with the page." }
    if env.joinOk = true then
      { t with roomConnected := true, roomMicEnabled := false
             , isConnected := true
             , connectionMessage := "Connected. Mic is off by default. Type or click mic icon."
             , conversation := [], liveTranscription := ""
             , isAiThinking := false, isAudioPlaying := false
             , isMicrophoneActive := false, isTogglingMic := false }
    else
      -- catch: report, and disconnect the room unless already disconnected
      -- (in either case the room ends up disconnected)
      { t with connectionMessage := "Connection failed: "
             , roomConnected := false, isTogglingMic := false }

/-- Embeds `stopAllStreams` (App.jsx 278-328).  The guarded
`setMicrophoneEnabled(false)` call leaves the room microphone disabled in
either branch, so it is embedded as the unconditional update. -/
def stopAllStreams (s : AppState) : AppState :=
  let t := stopMicrophoneStreams s
  { t with roomMicEnabled := false
         , eventSource := none
         , mediaSourcePresent := false, hasSourceBuffer := false
         , sourceBufferUpdating := false
         , audioQueue := [], appendingInProgress := false
         , isConnected := false, connectionMessage := "Disconnected"
         , conversation := [], liveTranscription := ""
         , isAiThinking := false, isAudioPlaying := false
         , conversationId := none }

/-- Embeds `handleDisconnect` (App.jsx 623-626). -/
def handleDisconnect (s : AppState) : AppState :=
  let t := stopAllStreams s
  { t with roomConnected := false }

/-- One serialized event of the application: downlink messages and channel
transitions, the reconnect timer, buffer completions, user actions and the
uplink WebSocket/recorder callbacks. -/
inductive AppEvent
  | sse (d : SSEData)
  | sseOpen
  | sseError (readyAfter : ESReady)
  | timerFire
  | sourceUpdateEnd (fail : List Bool)
  | toggleMic (micOk setupOk : Bool)
  | wsOpen
  | wsError
  | wsClose
  | recorderStop
  | connect (env : ConnectEnv)
  | disconnect
deriving DecidableEq, Repr

/-- The serialized event dispatcher: each host callback fires only when the
corresponding handle exists (or a close/stop was issued on it).  Its
`sse`, `sseError` and `timerFire` branches use the current-value
idealizations of the downlink handlers; the program's closures read
creation-time captured values (see `processSSEMessageCap`, `sseOnErrorCap`
and `startResponseStreamCap`).  The properties proved over `step` traces
concern only fields (the ghost violation counter, the toggle lock, the
uplink WebSocket) that those handlers touch identically under either
reading. -/
def step (e : AppEvent) (s : AppState) : AppState :=
  match e with
  | .sse d => if s.eventSource.isSome = true then processSSEMessage d s else s
  | .sseOpen =>
      match s.eventSource with
      | some es =>
          if es.ready = .connecting then { s with eventSource := some ⟨es.id, .opened⟩ } else s
      | none => s
  | .sseError r =>
      match s.eventSource with
      | some es => sseOnError { s with eventSource := some ⟨es.id, r⟩ }
      | none => s
  | .timerFire =>
      if s.pendingReconnects > 0 then
        startResponseStream { s with pendingReconnects := s.pendingReconnects - 1 }
      else s
  | .sourceUpdateEnd fail =>
      if s.sourceBufferUpdating = true then onSourceBufferUpdateEnd fail s else s
  | .toggleMic a b => toggleMicrophone a b s
  | .wsOpen => if s.wsState = some .connecting then wsOnOpen s else s
  | .wsError => if s.wsState.isSome = true then wsOnError s else s
  | .wsClose =>
      if s.wsState.isSome = true then wsOnClose s
      else if s.pendingWsClose = true then wsOnClose { s with pendingWsClose := false }
      else s
  | .recorderStop =>
      if s.pendingRecStop = true then onRecorderStop { s with pendingRecStop := false } else s
  | .connect env => handleConnect env s
  | .disconnect => handleDisconnect s

/-- Runs a sequence of serialized events. -/
def run : List AppEvent → AppState → AppState
  | [], s => s
  | e :: es, s => run es (step e s)

/-- The mount-time state of the component. -/
def initState : AppState :=
  { isConnected := false, connectionMessage := "Disconnected"
  , conversation := [], liveTranscription := ""
  , isAiThinking := false, isAudioPlaying := false, isMicrophoneActive := false
  , conversationId := none
  , wsState := none, mediaRecorder := none, eventSource := none
  , mediaSourcePresent := false, hasSourceBuffer := false, sourceBufferUpdating := false
  , audioQueue := [], appendingInProgress := false
  , isTogglingMic := false, roomConnected := false, roomMicEnabled := false
  , pendingWsClose := false, pendingRecStop := false, pendingReconnects := 0
  , violations := 0, appendAttempts := 0, opens := 0, openedIds := [] }

/-- A representative connected, idle state: session established, downlink
open, playback buffer initialized, microphone off, no toggle in flight. -/
def connectedState : AppState :=
  { initState with
      isConnected := true
    , connectionMessage := "Connected. Mic is off by default. Type or click mic icon."
    , conversationId := some 1
    , eventSource := some ⟨1, .opened⟩
    , mediaSourcePresent := true, hasSourceBuffer := true
    , roomConnected := true }

/-- A downlink payload that cannot be decoded into a `DownstreamEvent`:
`JSON.parse` throws, the `type` tag is unrecognized, or the base64 audio
field of an `audio_chunk` does not decode. -/
def undecodableEvent : SSEData → Bool
  | .malformed => true
  | .unrecognized => true
  | .audioChunk .bad _ _ => true
  | _ => false

/-- Values captured by the render that creates an `EventSource` and attaches
its handlers (App.jsx 352-355, 430).  Because the redundant-open guard of
`startResponseStream` skips re-initialization while the stream is connecting
or open, the `onmessage`/`onerror` closures keep these creation-time values
for the whole life of the stream: they are never refreshed. -/
structure ESClosure where
  isConnected : Bool
  conversationId : Option Nat
  isAudioPlaying : Bool
  liveTranscription : String
deriving DecidableEq, Repr

/-- Closure-faithful embedding of the SSE `onmessage` handler: the
`stt_transcript_update` guard (App.jsx 361) and the `final_transcript`
replacement comparison (App.jsx 372) read the `isAudioPlaying` and
`liveTranscription` captured in `env` at `EventSource` creation, while the
refs (`audioQueueRef`, `sourceBufferRef`, `appendingInProgressRef`) and the
functional `setConversation` updater read current state.
`processSSEMessage` is the current-value idealization of this handler. -/
def processSSEMessageCap (env : ESClosure) (d : SSEData) (s : AppState) : AppState :=
  match d with
  | .malformed => s
  | .unrecognized => s
  | .sttUpdate t =>
      if env.isAudioPlaying = true then s
      else { s with liveTranscription := t, isAiThinking := true }
  | .finalTranscript t =>
      let conv :=
        match lastIdxOfSpeaker .you s.conversation with
        | some i =>
            if (s.conversation.getD i ⟨.you, ""⟩).text = env.liveTranscription
               ∧ env.liveTranscription ≠ "" then
              s.conversation.set i ⟨.you, t⟩
            else s.conversation ++ [⟨.you, t⟩]
        | none => s.conversation ++ [⟨.you, t⟩]
      { s with conversation := conv, liveTranscription := "", isAiThinking := true }
  | .aiThinking b => { s with isAiThinking := b }
  | .audioChunk audio llm fail =>
      let t := { s with isAiThinking := false, liveTranscription := "" }
      let t := { t with conversation := updateAIConversation t.conversation llm }
      match audio with
      | .bad => t
      | .ok bytes =>
          if bytes.length > 0 then
            let t := { t with audioQueue := t.audioQueue ++ [bytes] }
            if t.hasSourceBuffer = true ∧ t.sourceBufferUpdating = false then
              appendAudioChunk fail t
            else t
          else t

/-- Closure-faithful embedding of the SSE `onerror` handler (App.jsx
430-444): the `isConnected && conversationId` guard reads the values
captured at `EventSource` creation.  `sseOnError` is the current-value
idealization. -/
def sseOnErrorCap (env : ESClosure) (s : AppState) : AppState :=
  if env.isConnected = true ∧ env.conversationId.isSome = true then
    { s with pendingReconnects := s.pendingReconnects + 1 }
  else
    { s with eventSource := none
           , connectionMessage := "SSE connection lost. Please reconnect."
           , isAiThinking := false, isAudioPlaying := false }

/-- Closure-faithful embedding of the `startResponseStream` instance that
the un-cancelled 1s reconnect timer invokes (App.jsx 436): `cid` is the
`conversationId` captured by the render that created the failing
`EventSource` — it survives `setConversationId(null)` at teardown — while
`eventSourceRef` is a ref and is read current. -/
def startResponseStreamCap (cid : Option Nat) (s : AppState) : AppState :=
  match cid with
  | none => s
  | some c =>
    match s.eventSource with
    | some es =>
        if es.id ≠ c ∧ es.ready = .opened then openES c s
        else if es.ready = .connecting ∨ es.ready = .opened then s
        else openES c s
    | none => openES c s

/-! ## Frame and helper lemmas -/

/-- `appendAudioChunk` never touches the session, channel or ghost-trace
fields, and in particular never increments `violations`: every `appendBuffer`
it issues happens with the underlying buffer not updating. -/
theorem appendAudioChunk_ghost (fail : List Bool) : ∀ s : AppState,
    (appendAudioChunk fail s).violations = s.violations ∧
    (appendAudioChunk fail s).isTogglingMic = s.isTogglingMic ∧
    (appendAudioChunk fail s).wsState = s.wsState ∧
    (appendAudioChunk fail s).pendingWsClose = s.pendingWsClose ∧
    (appendAudioChunk fail s).conversationId = s.conversationId ∧
    (appendAudioChunk fail s).eventSource = s.eventSource ∧
    (appendAudioChunk fail s).opens = s.opens := by
  induction fail with
  | nil =>
      intro s
      simp only [appendAudioChunk]
      split
      · exact ⟨rfl, rfl, rfl, rfl, rfl, rfl, rfl⟩
      · split
        · exact ⟨rfl, rfl, rfl, rfl, rfl, rfl, rfl⟩
        · split
          · exact ⟨rfl, rfl, rfl, rfl, rfl, rfl, rfl⟩
          · simp_all [issueAppend]
  | cons f fs ih =>
      intro s
      simp only [appendAudioChunk]
      split
      · exact ⟨rfl, rfl, rfl, rfl, rfl, rfl, rfl⟩
      · split
        · exact ⟨rfl, rfl, rfl, rfl, rfl, rfl, rfl⟩
        · split
          · exact ⟨rfl, rfl, rfl, rfl, rfl, rfl, rfl⟩
          · split
            · exact ⟨(ih _).1, (ih _).2.1, (ih _).2.2.1, (ih _).2.2.2.1,
                     (ih _).2.2.2.2.1, (ih _).2.2.2.2.2.1, (ih _).2.2.2.2.2.2⟩
            · simp_all [issueAppend]

/-- An `appendAudioChunk` call entered while the in-flight flag is held
returns immediately and leaves the flag held. -/
theorem appendAudioChunk_keepFlag (fail : List Bool) (s : AppState)
    (h : s.appendingInProgress = true) :
    (appendAudioChunk fail s).appendingInProgress = true := by
  cases fail <;> simp only [appendAudioChunk] <;>
    rw [if_pos (Or.inr (Or.inr h))] <;> exact h

/-- The SSE message handler never touches the toggle lock, the uplink
WebSocket, the conversation id, the downlink handle, the ghost open counter
or the ghost violation counter. -/
theorem processSSEMessage_ghost (d : SSEData) (s : AppState) :
    (processSSEMessage d s).violations = s.violations ∧
    (processSSEMessage d s).isTogglingMic = s.isTogglingMic ∧
    (processSSEMessage d s).wsState = s.wsState ∧
    (processSSEMessage d s).pendingWsClose = s.pendingWsClose ∧
    (processSSEMessage d s).conversationId = s.conversationId ∧
    (processSSEMessage d s).eventSource = s.eventSource ∧
    (processSSEMessage d s).opens = s.opens := by
  cases d with
  | malformed => exact ⟨rfl, rfl, rfl, rfl, rfl, rfl, rfl⟩
  | unrecognized => exact ⟨rfl, rfl, rfl, rfl, rfl, rfl, rfl⟩
  | sttUpdate t => simp only [processSSEMessage]; split <;> simp
  | finalTranscript t => exact ⟨rfl, rfl, rfl, rfl, rfl, rfl, rfl⟩
  | aiThinking b => simp [processSSEMessage]
  | audioChunk audio llm fail =>
      cases audio with
      | bad => simp [processSSEMessage]
      | ok bytes =>
          simp only [processSSEMessage]
          split
          · split
            · exact appendAudioChunk_ghost fail _
            · simp
          · simp

/-- A re-entrant `toggleMicrophone` call while the lock is held is a no-op. -/
theorem toggleMicrophone_locked (a b : Bool) (s : AppState)
    (h : s.isTogglingMic = true) : toggleMicrophone a b s = s := by
  unfold toggleMicrophone; rw [if_pos h]

/-- A `handleConnect` call while the shared busy lock is held is a no-op. -/
theorem handleConnect_locked (env : ConnectEnv) (s : AppState)
    (h : s.isTogglingMic = true) : handleConnect env s = s := by
  unfold handleConnect; rw [if_pos h]

/-- `stopMicrophoneStreams` nulls the WebSocket ref, keeps the toggle lock
and the downlink-side fields untouched, and schedules a pending close only
when an open WebSocket existed. -/
theorem stopMicrophoneStreams_ghost (s : AppState) :
    (stopMicrophoneStreams s).violations = s.violations ∧
    (stopMicrophoneStreams s).isTogglingMic = s.isTogglingMic ∧
    (stopMicrophoneStreams s).wsState = none ∧
    (stopMicrophoneStreams s).conversationId = s.conversationId ∧
    (stopMicrophoneStreams s).eventSource = s.eventSource ∧
    (stopMicrophoneStreams s).opens = s.opens ∧
    (s.wsState = none → (stopMicrophoneStreams s).pendingWsClose = s.pendingWsClose) := by
  simp only [stopMicrophoneStreams]
  split <;> split <;> simp_all

/-- `startResponseStream` touches only the downlink handle and its ghost
log. -/
theorem startResponseStream_ghost (s : AppState) :
    (startResponseStream s).violations = s.violations ∧
    (startResponseStream s).isTogglingMic = s.isTogglingMic ∧
    (startResponseStream s).wsState = s.wsState ∧
    (startResponseStream s).pendingWsClose = s.pendingWsClose ∧
    (startResponseStream s).conversationId = s.conversationId := by
  simp only [startResponseStream]
  split
  · exact ⟨rfl, rfl, rfl, rfl, rfl⟩
  · split
    · split
      · simp [openES]
      · split
        · simp
        · simp [openES]
    · simp [openES]

/-- The SSE `onerror` handler touches neither the toggle lock, the uplink,
the conversation id, the ghost open counter nor the violation counter. -/
theorem sseOnError_ghost (s : AppState) :
    (sseOnError s).violations = s.violations ∧
    (sseOnError s).isTogglingMic = s.isTogglingMic ∧
    (sseOnError s).wsState = s.wsState ∧
    (sseOnError s).pendingWsClose = s.pendingWsClose ∧
    (sseOnError s).conversationId = s.conversationId ∧
    (sseOnError s).opens = s.opens := by
  simp only [sseOnError]; split <;> simp

/-- `startAudioStreamToSTT` never touches the conversation id, the downlink
handle, the ghost open counter or the violation counter. -/
theorem startAudioStreamToSTT_ghost (b : Bool) (s : AppState) :
    (startAudioStreamToSTT b s).violations = s.violations ∧
    (startAudioStreamToSTT b s).conversationId = s.conversationId ∧
    (startAudioStreamToSTT b s).eventSource = s.eventSource ∧
    (startAudioStreamToSTT b s).opens = s.opens := by
  obtain ⟨g1, g2, g3, g4, g5, g6, g7⟩ := stopMicrophoneStreams_ghost s
  simp only [startAudioStreamToSTT]
  split
  · exact ⟨g1, g4, g5, g6⟩
  · split
    · exact ⟨g1, g4, g5, g6⟩
    · exact ⟨((stopMicrophoneStreams_ghost _).1).trans g1,
             ((stopMicrophoneStreams_ghost _).2.2.2.1).trans g4,
             ((stopMicrophoneStreams_ghost _).2.2.2.2.1).trans g5,
             ((stopMicrophoneStreams_ghost _).2.2.2.2.2.1).trans g6⟩

/-- `toggleMicrophone` never touches the conversation id, the downlink
handle, the ghost open counter or the violation counter. -/
theorem toggleMicrophone_ghost (a b : Bool) (s : AppState) :
    (toggleMicrophone a b s).violations = s.violations ∧
    (toggleMicrophone a b s).conversationId = s.conversationId ∧
    (toggleMicrophone a b s).eventSource = s.eventSource ∧
    (toggleMicrophone a b s).opens = s.opens := by
  simp only [toggleMicrophone]
  split
  · exact ⟨rfl, rfl, rfl, rfl⟩
  · split
    · exact ⟨rfl, rfl, rfl, rfl⟩
    · split
      · split <;>
          exact ⟨(stopMicrophoneStreams_ghost _).1,
                 (stopMicrophoneStreams_ghost _).2.2.2.1,
                 (stopMicrophoneStreams_ghost _).2.2.2.2.1,
                 (stopMicrophoneStreams_ghost _).2.2.2.2.2.1⟩
      · split
        · exact ⟨(startAudioStreamToSTT_ghost _ _).1,
                 (startAudioStreamToSTT_ghost _ _).2.1,
                 (startAudioStreamToSTT_ghost _ _).2.2.1,
                 (startAudioStreamToSTT_ghost _ _).2.2.2⟩
        · exact ⟨(stopMicrophoneStreams_ghost _).1,
                 (stopMicrophoneStreams_ghost _).2.2.2.1,
                 (stopMicrophoneStreams_ghost _).2.2.2.2.1,
                 (stopMicrophoneStreams_ghost _).2.2.2.2.2.1⟩

/-- The uplink WebSocket handlers and the recorder `onstop` handler touch
neither the conversation id, the downlink handle, the open counter nor the
violation counter. -/
theorem wsHandlers_ghost (s : AppState) :
    ((wsOnOpen s).violations = s.violations ∧
     (wsOnOpen s).conversationId = s.conversationId ∧
     (wsOnOpen s).eventSource = s.eventSource ∧
     (wsOnOpen s).opens = s.opens) ∧
    ((wsOnError s).violations = s.violations ∧
     (wsOnError s).conversationId = s.conversationId ∧
     (wsOnError s).eventSource = s.eventSource ∧
     (wsOnError s).opens = s.opens) ∧
    ((wsOnClose s).violations = s.violations ∧
     (wsOnClose s).conversationId = s.conversationId ∧
     (wsOnClose s).eventSource = s.eventSource ∧
     (wsOnClose s).opens = s.opens) ∧
    ((onRecorderStop s).violations = s.violations ∧
     (onRecorderStop s).conversationId = s.conversationId ∧
     (onRecorderStop s).eventSource = s.eventSource ∧
     (onRecorderStop s).opens = s.opens ∧
     (onRecorderStop s).isTogglingMic = s.isTogglingMic ∧
     (onRecorderStop s).wsState = s.wsState ∧
     (onRecorderStop s).pendingWsClose = s.pendingWsClose) := by
  refine ⟨⟨rfl, rfl, rfl, rfl⟩, ?_, ?_, ⟨rfl, rfl, rfl, rfl, rfl, rfl, rfl⟩⟩ <;>
    simp only [wsOnError, wsOnClose, stopMicrophoneStreams] <;>
    split <;> split <;> simp_all

/-- `stopAllStreams` clears the conversation id and the downlink handle,
keeps the toggle lock and the ghost counters untouched, and leaves the
pending-close flag alone when no WebSocket existed. -/
theorem stopAllStreams_ghost (s : AppState) :
    (stopAllStreams s).violations = s.violations ∧
    (stopAllStreams s).isTogglingMic = s.isTogglingMic ∧
    (stopAllStreams s).wsState = none ∧
    (stopAllStreams s).conversationId = none ∧
    (stopAllStreams s).eventSource = none ∧
    (stopAllStreams s).opens = s.opens ∧
    (s.wsState = none → (stopAllStreams s).pendingWsClose = s.pendingWsClose) := by
  obtain ⟨g1, g2, g3, g4, g5, g6, g7⟩ := stopMicrophoneStreams_ghost s
  exact ⟨g1, g2, g3, rfl, rfl, g6, g7⟩

/-- `initMediaSource` touches only the media-source and source-buffer
handles. -/
theorem initMediaSource_ghost (s : AppState) :
    (initMediaSource s).violations = s.violations ∧
    (initMediaSource s).wsState = s.wsState ∧
    (initMediaSource s).pendingWsClose = s.pendingWsClose := by
  refine ⟨?_, ?_, ?_⟩ <;> (simp only [initMediaSource]; split <;> rfl)

/-- `handleConnect` keeps the violation counter and the whole uplink side
untouched. -/
theorem handleConnect_ghost (env : ConnectEnv) (s : AppState) :
    (handleConnect env s).violations = s.violations ∧
    (handleConnect env s).wsState = s.wsState ∧
    (handleConnect env s).pendingWsClose = s.pendingWsClose := by
  simp only [handleConnect]
  split
  · exact ⟨rfl, rfl, rfl⟩
  · obtain ⟨h1, h2, h3, h4, h5⟩ := startResponseStream_ghost
      { s with isTogglingMic := true, connectionMessage := "Connecting..."
             , conversationId := some env.newId }
    split <;> split <;>
      first
        | exact ⟨((initMediaSource_ghost _).1).trans h1,
                 ((initMediaSource_ghost _).2.1).trans h3,
                 ((initMediaSource_ghost _).2.2).trans h4⟩
        | exact ⟨h1, h3, h4⟩

/-- `handleDisconnect` clears the conversation id and the downlink handle,
keeps the toggle lock and the ghost counters untouched, and leaves the
pending-close flag alone when no WebSocket existed. -/
theorem handleDisconnect_ghost (s : AppState) :
    (handleDisconnect s).violations = s.violations ∧
    (handleDisconnect s).isTogglingMic = s.isTogglingMic ∧
    (handleDisconnect s).wsState = none ∧
    (handleDisconnect s).conversationId = none ∧
    (handleDisconnect s).eventSource = none ∧
    (handleDisconnect s).opens = s.opens ∧
    (s.wsState = none → (handleDisconnect s).pendingWsClose = s.pendingWsClose) := by
  obtain ⟨g1, g2, g3, g4, g5, g6, g7⟩ := stopAllStreams_ghost s
  exact ⟨g1, g2, g3, g4, g5, g6, g7⟩

/-- No serialized event ever increments the ghost violation counter: the
software single-flight discipline protects every `appendBuffer` issue. -/
theorem step_violations (e : AppEvent) (s : AppState) :
    (step e s).violations = s.violations := by
  cases e with
  | sse d =>
      simp only [step]; split
      · exact (processSSEMessage_ghost d s).1
      · rfl
  | sseOpen =>
      simp only [step]
      split
      · split <;> rfl
      · rfl
  | sseError r =>
      simp only [step]
      split
      · exact (sseOnError_ghost _).1
      · rfl
  | timerFire =>
      simp only [step]; split
      · exact (startResponseStream_ghost _).1
      · rfl
  | sourceUpdateEnd fail =>
      simp only [step]; split
      · simp only [onSourceBufferUpdateEnd]
        split
        · rfl
        · exact (appendAudioChunk_ghost fail _).1
      · rfl
  | toggleMic a b => exact (toggleMicrophone_ghost a b s).1
  | wsOpen =>
      simp only [step]; split
      · exact (wsHandlers_ghost s).1.1
      · rfl
  | wsError =>
      simp only [step]; split
      · exact (wsHandlers_ghost s).2.1.1
      · rfl
  | wsClose =>
      simp only [step]; split
      · exact (wsHandlers_ghost s).2.2.1.1
      · split
        · exact (wsHandlers_ghost _).2.2.1.1
        · rfl
  | recorderStop =>
      simp only [step]; split
      · exact (wsHandlers_ghost _).2.2.2.1
      · rfl
  | connect env => exact (handleConnect_ghost env s).1
  | disconnect => exact (handleDisconnect_ghost s).1

/-- Once the toggle lock is held with no uplink WebSocket alive and no close
callback pending, no serialized event can release the lock or create a
WebSocket: the lock is stuck forever. -/
theorem step_lockStuck (e : AppEvent) (s : AppState)
    (h1 : s.isTogglingMic = true) (h2 : s.wsState = none)
    (h3 : s.pendingWsClose = false) :
    (step e s).isTogglingMic = true ∧ (step e s).wsState = none ∧
    (step e s).pendingWsClose = false := by
  cases e with
  | sse d =>
      simp only [step]; split
      · obtain ⟨g1, g2, g3, g4, g5, g6, g7⟩ := processSSEMessage_ghost d s
        exact ⟨g2.trans h1, g3.trans h2, g4.trans h3⟩
      · exact ⟨h1, h2, h3⟩
  | sseOpen =>
      simp only [step]
      split
      · split
        · exact ⟨h1, h2, h3⟩
        · exact ⟨h1, h2, h3⟩
      · exact ⟨h1, h2, h3⟩
  | sseError r =>
      simp only [step]
      split
      · obtain ⟨g1, g2, g3, g4, g5, g6⟩ := sseOnError_ghost _
        exact ⟨g2.trans h1, g3.trans h2, g4.trans h3⟩
      · exact ⟨h1, h2, h3⟩
  | timerFire =>
      simp only [step]; split
      · obtain ⟨g1, g2, g3, g4, g5⟩ := startResponseStream_ghost _
        exact ⟨g2.trans h1, g3.trans h2, g4.trans h3⟩
      · exact ⟨h1, h2, h3⟩
  | sourceUpdateEnd fail =>
      simp only [step]; split
      · simp only [onSourceBufferUpdateEnd]
        split
        · exact ⟨h1, h2, h3⟩
        · obtain ⟨g1, g2, g3, g4, g5, g6, g7⟩ := appendAudioChunk_ghost fail _
          exact ⟨g2.trans h1, g3.trans h2, g4.trans h3⟩
      · exact ⟨h1, h2, h3⟩
  | toggleMic a b =>
      simp only [step]
      rw [toggleMicrophone_locked a b s h1]
      exact ⟨h1, h2, h3⟩
  | wsOpen =>
      simp only [step]; split
      · simp_all
      · exact ⟨h1, h2, h3⟩
  | wsError =>
      simp only [step]; split
      · simp_all
      · exact ⟨h1, h2, h3⟩
  | wsClose =>
      simp only [step]; split
      · simp_all
      · split
        · simp_all
        · exact ⟨h1, h2, h3⟩
  | recorderStop =>
      simp only [step]; split
      · obtain ⟨g1, g2, g3, g4, g5, g6, g7⟩ := (wsHandlers_ghost _).2.2.2
        exact ⟨g5.trans h1, g6.trans h2, g7.trans h3⟩
      · exact ⟨h1, h2, h3⟩
  | connect env =>
      simp only [step]
      rw [handleConnect_locked env s h1]
      exact ⟨h1, h2, h3⟩
  | disconnect =>
      obtain ⟨g1, g2, g3, g4, g5, g6, g7⟩ := handleDisconnect_ghost s
      exact ⟨g2.trans h1, g3, (g7 h2).trans h3⟩

theorem run_violations (evts : List AppEvent) : ∀ s : AppState,
    (run evts s).violations = s.violations := by
  induction evts with
  | nil => intro s; rfl
  | cons e es ih => intro s; exact (ih (step e s)).trans (step_violations e s)

theorem run_lockStuck : ∀ (evts : List AppEvent) (s : AppState),
    s.isTogglingMic = true → s.wsState = none → s.pendingWsClose = false →
    (run evts s).isTogglingMic = true ∧ (run evts s).wsState = none ∧
    (run evts s).pendingWsClose = false := by
  intro evts
  induction evts with
  | nil => intro s h1 h2 h3; exact ⟨h1, h2, h3⟩
  | cons e es ih =>
      intro s h1 h2 h3
      have h := step_lockStuck e s h1 h2 h3
      exact ih (step e s) h.1 h.2.1 h.2.2

theorem startResponseStream_opensSome (s : AppState) (cid : Nat)
    (h : s.conversationId = some cid) :
    ((startResponseStream s).eventSource).isSome = true := by
  simp only [startResponseStream, h]
  split
  next es heq =>
    split
    · simp [openES]
    · split
      · simp [heq]
      · simp [openES]
  next heq => simp [openES]

theorem toggleMicrophone_start_facts (s : AppState) (cid : Nat)
    (h0 : s.isTogglingMic = false) (h1 : s.isConnected = true)
    (h2 : s.isMicrophoneActive = false) (h3 : s.conversationId = some cid) :
    (toggleMicrophone true true s).isTogglingMic = true ∧
    (toggleMicrophone true true s).wsState = some WSReady.connecting := by
  by_cases hr : s.mediaRecorder = some RecState.recording <;>
  by_cases hw : s.wsState = some WSReady.opened <;>
    simp [toggleMicrophone, startAudioStreamToSTT, stopMicrophoneStreams,
          h0, h1, h2, h3, hr, hw]

theorem processFinal_liveEmpty (t : String) (u : AppState)
    (h : u.liveTranscription = "") :
    (processSSEMessage (.finalTranscript t) u).conversation
      = u.conversation ++ [⟨.you, t⟩] := by
  simp only [processSSEMessage]
  cases hm : lastIdxOfSpeaker .you u.conversation with
  | none => simp [hm]
  | some i => simp [hm, h]

/-- C1: Single-flight append.  Along every sequence of serialized events
(in particular every interleaving of playback-chunk enqueues and append
completions) starting from the initial state, the ghost `violations`
counter — which counts every `appendBuffer` issued while the underlying
`SourceBuffer` is already updating — stays zero, so at most one append is
outstanding at any instant; and an enqueue arriving while the in-flight
flag `appendingInProgress` is held never clears that flag (it is cleared
only by the `updateend` completion handler or by the synchronous-failure
branch of the very call that set it). -/
theorem single_flight_append :
    (∀ evts : List AppEvent, (run evts initState).violations = 0) ∧
    (∀ (s : AppState) (bytes : List Nat) (llm : Option String) (fail : List Bool),
      (processSSEMessage (.audioChunk (.ok bytes) llm fail)
          { s with appendingInProgress := true }).appendingInProgress = true) := by
  constructor
  · intro evts; exact run_violations evts initState
  · intro s bytes llm fail
    simp only [processSSEMessage]
    split
    · split
      · exact appendAudioChunk_keepFlag fail _ rfl
      · rfl
    · rfl

/-- C2: Toggle non-reentrancy.  A `toggleMicrophone` invocation that finds
the non-reentrant lock held is a no-op: it changes no state and opens no
channel.  Consequently, from a connected, mic-off state, a first toggle
acquires the lock and opens exactly one uplink WebSocket, and any second
toggle arriving while the first is still in flight (the lock is held until
a WebSocket callback releases it) is rejected as the identity: two
concurrent toggles produce exactly one state transition. -/
theorem toggle_nonreentrant :
    (∀ (s : AppState) (a b : Bool), s.isTogglingMic = true → toggleMicrophone a b s = s) ∧
    (∀ (s : AppState) (cid : Nat),
      s.isTogglingMic = false → s.isConnected = true → s.isMicrophoneActive = false →
      s.conversationId = some cid →
      (toggleMicrophone true true s).isTogglingMic = true ∧
      (toggleMicrophone true true s).wsState = some WSReady.connecting ∧
      ∀ a b : Bool, toggleMicrophone a b (toggleMicrophone true true s)
        = toggleMicrophone true true s) := by
  constructor
  · intro s a b h; exact toggleMicrophone_locked a b s h
  · intro s cid h0 h1 h2 h3
    obtain ⟨k1, k2⟩ := toggleMicrophone_start_facts s cid h0 h1 h2 h3
    exact ⟨k1, k2, fun a b => toggleMicrophone_locked a b _ k1⟩

theorem toggle_nonreentrant_witness :
    (toggleMicrophone true false { connectedState with isTogglingMic := true }
        = { connectedState with isTogglingMic := true }) ∧
    ((toggleMicrophone true true connectedState).isTogglingMic = true ∧
     (toggleMicrophone true true connectedState).wsState = some WSReady.connecting ∧
     ∀ a b : Bool, toggleMicrophone a b (toggleMicrophone true true connectedState)
        = toggleMicrophone true true connectedState) :=
  ⟨toggle_nonreentrant.1 _ true false rfl,
   toggle_nonreentrant.2 connectedState 1 rfl rfl rfl rfl⟩

/-- C3: Partial-to-final replacement.  Processing the downstream events
`partial("he")`, `partial("hell")`, `final("hello")` from an empty
transcript state (empty conversation ledger and empty live transcription)
leaves the ledger with exactly one user entry whose text is `"hello"`, and
an empty live transcription — the entry sits in the finalized
`conversation` list, which is how the code marks finality (non-final user
text lives only in `liveTranscription`). -/
theorem transcript_replacement (s : AppState)
    (h1 : s.conversation = []) (h2 : s.liveTranscription = "") :
    (processSSEMessage (.finalTranscript "hello")
      (processSSEMessage (.sttUpdate "hell")
        (processSSEMessage (.sttUpdate "he") s))).conversation
        = [⟨.you, "hello"⟩] ∧
    (processSSEMessage (.finalTranscript "hello")
      (processSSEMessage (.sttUpdate "hell")
        (processSSEMessage (.sttUpdate "he") s))).liveTranscription = "" := by
  cases hp : s.isAudioPlaying <;>
    simp [processSSEMessage, hp, h1, h2, lastIdxOfSpeaker]

theorem transcript_replacement_witness :
    (processSSEMessage (.finalTranscript "hello")
      (processSSEMessage (.sttUpdate "hell")
        (processSSEMessage (.sttUpdate "he") initState))).conversation
        = [⟨.you, "hello"⟩] ∧
    (processSSEMessage (.finalTranscript "hello")
      (processSSEMessage (.sttUpdate "hell")
        (processSSEMessage (.sttUpdate "he") initState))).liveTranscription = "" :=
  transcript_replacement initState rfl rfl

/-- C4 counterexample: applying the same `final_transcript("hello")` event
twice in a row to the connected idle state yields TWO user entries, not
one — the second application does not leave the ledger unchanged, refuting
the claimed idempotence at this concrete input. -/
theorem final_transcript_twice_duplicates :
    (processSSEMessage (.finalTranscript "hello")
        (processSSEMessage (.finalTranscript "hello") connectedState)).conversation
      = [⟨.you, "hello"⟩, ⟨.you, "hello"⟩] ∧
    (processSSEMessage (.finalTranscript "hello") connectedState).conversation
      = [⟨.you, "hello"⟩] := by
  constructor <;> rfl

/-- C4 amended: applying the same `final_transcript` event twice in a row
appends a second user entry with the same text — the first application
clears the live transcription, so the replacement heuristic of the second
application cannot match and falls through to the append branch; the
ledger grows instead of staying unchanged. -/
theorem final_transcript_twice_appends (s : AppState) (t : String) :
    (processSSEMessage (.finalTranscript t)
        (processSSEMessage (.finalTranscript t) s)).conversation
      = (processSSEMessage (.finalTranscript t) s).conversation ++ [⟨.you, t⟩] :=
  processFinal_liveEmpty t _ rfl

/-- C6 counterexample: a `connect()` whose token fetch / room join fails
(environment `joinOk = false`) does NOT leave a clean disconnected state:
the conversation id remains set to the new id, the event-stream connection
opened for it remains, and the playback media source remains initialized,
refuting full teardown at this concrete input. -/
theorem connect_failure_leaves_resources :
    (handleConnect ⟨1, true, false⟩ initState).isConnected = false ∧
    (handleConnect ⟨1, true, false⟩ initState).conversationId ≠ none ∧
    (handleConnect ⟨1, true, false⟩ initState).eventSource ≠ none ∧
    (handleConnect ⟨1, true, false⟩ initState).conversationId = some 1 ∧
    (handleConnect ⟨1, true, false⟩ initState).eventSource = some ⟨1, .connecting⟩ ∧
    (handleConnect ⟨1, true, false⟩ initState).mediaSourcePresent = true := by
  refine ⟨rfl, ?_, ?_, rfl, rfl, rfl⟩ <;> decide

theorem initMediaSource_ghost2 (s : AppState) :
    (initMediaSource s).isConnected = s.isConnected ∧
    (initMediaSource s).conversationId = s.conversationId ∧
    (initMediaSource s).eventSource = s.eventSource := by
  refine ⟨?_, ?_, ?_⟩ <;> (simp only [initMediaSource]; split <;> rfl)

theorem startResponseStream_isConnected (s : AppState) :
    (startResponseStream s).isConnected = s.isConnected := by
  simp only [startResponseStream]
  split
  · rfl
  · split
    · split
      · simp [openES]
      · split
        · rfl
        · simp [openES]
    · simp [openES]

/-- C6 amended: on a failing `connect()` (token fetch, room join, or
setup failure) the session is left not connected, the busy lock is
released, and the room is disconnected — but teardown is incomplete: the
freshly generated conversation id is retained and the event-stream
connection opened for it stays alive (and, when the autoplay block
succeeded, the media source stays initialized). -/
theorem connect_failure_teardown_incomplete (env : ConnectEnv) (s : AppState)
    (h0 : s.isTogglingMic = false) (h1 : s.isConnected = false)
    (h2 : env.joinOk = false) :
    (handleConnect env s).isConnected = false ∧
    (handleConnect env s).isTogglingMic = false ∧
    (handleConnect env s).roomConnected = false ∧
    (handleConnect env s).conversationId = some env.newId ∧
    (handleConnect env s).eventSource.isSome = true := by
  have heq : handleConnect env s =
      { (if env.autoplayOk = true
         then initMediaSource (startResponseStream
           { s with isTogglingMic := true, connectionMessage := "Connecting..."
                  , conversationId := some env.newId })
         else { startResponseStream
           { s with isTogglingMic := true, connectionMessage := "Connecting..."
                  , conversationId := some env.newId } with
             connectionMessage :=
               "Autoplay blocked. Click connect again or interact with the page." }) with
        connectionMessage := "Connection failed: "
      , roomConnected := false, isTogglingMic := false } := by
    simp only [handleConnect, h0, h2, Bool.false_eq_true, if_false]
  rw [heq]
  obtain ⟨g1, g2, g3, g4, g5⟩ := startResponseStream_ghost
    { s with isTogglingMic := true, connectionMessage := "Connecting..."
           , conversationId := some env.newId }
  have gC := startResponseStream_isConnected
    { s with isTogglingMic := true, connectionMessage := "Connecting..."
           , conversationId := some env.newId }
  have gSome := startResponseStream_opensSome
    { s with isTogglingMic := true, connectionMessage := "Connecting..."
           , conversationId := some env.newId } env.newId rfl
  by_cases ha : env.autoplayOk = true
  · rw [if_pos ha]
    obtain ⟨m1, m2, m3⟩ := initMediaSource_ghost2 (startResponseStream
      { s with isTogglingMic := true, connectionMessage := "Connecting..."
             , conversationId := some env.newId })
    exact ⟨m1.trans (gC.trans h1), rfl, rfl, m2.trans g5,
           (congrArg Option.isSome m3).trans gSome⟩
  · rw [if_neg ha]
    exact ⟨gC.trans h1, rfl, rfl, g5, gSome⟩

theorem connect_failure_teardown_incomplete_witness :
    (handleConnect ⟨7, true, false⟩ initState).isConnected = false ∧
    (handleConnect ⟨7, true, false⟩ initState).isTogglingMic = false ∧
    (handleConnect ⟨7, true, false⟩ initState).roomConnected = false ∧
    (handleConnect ⟨7, true, false⟩ initState).conversationId = some 7 ∧
    (handleConnect ⟨7, true, false⟩ initState).eventSource.isSome = true :=
  connect_failure_teardown_incomplete ⟨7, true, false⟩ initState rfl rfl rfl

/-- C7: the claim that every `toggleMicrophone` exit path releases the
non-reentrant lock is FALSE on the code: in the start path, when acquiring
the microphone track fails (`setMicrophoneEnabled(true)` throws), the
catch block only calls `stopMicrophoneStreams`, which never touches the
lock, and no WebSocket exists whose callbacks could release it — the lock
remains held and, as proved here, stays held after every possible
subsequent event sequence, permanently disabling the control. -/
theorem toggle_mic_failure_lock_stuck :
    (toggleMicrophone false true connectedState).isTogglingMic = true ∧
    (toggleMicrophone false true connectedState).isMicrophoneActive = false ∧
    (toggleMicrophone false true connectedState).wsState = none ∧
    (toggleMicrophone false true connectedState).pendingWsClose = false ∧
    ∀ evts : List AppEvent,
      (run evts (toggleMicrophone false true connectedState)).isTogglingMic = true := by
  refine ⟨rfl, rfl, rfl, rfl, ?_⟩
  intro evts
  exact (run_lockStuck evts (toggleMicrophone false true connectedState) rfl rfl rfl).1

/-- C8 counterexample: an `audio_chunk` message whose base64 payload is
undecodable (so the message is undecodable as a `DownstreamEvent`) is
discarded without crashing, but does NOT leave the state unchanged: the
handler has already cleared the thinking flag and the live transcription
and updated the agent ledger entry before `atob` throws. -/
theorem undecodable_audio_chunk_mutates_state :
    undecodableEvent (.audioChunk .bad (some "Hi") []) = true ∧
    (step (.sse (.audioChunk .bad (some "Hi") []))
        { connectedState with isAiThinking := true, liveTranscription := "hel" }).conversation
      ≠ ({ connectedState with isAiThinking := true, liveTranscription := "hel" } : AppState).conversation ∧
    (step (.sse (.audioChunk .bad (some "Hi") []))
        { connectedState with isAiThinking := true, liveTranscription := "hel" }).isAiThinking
      ≠ ({ connectedState with isAiThinking := true, liveTranscription := "hel" } : AppState).isAiThinking ∧
    (step (.sse (.audioChunk .bad (some "Hi") []))
        { connectedState with isAiThinking := true, liveTranscription := "hel" }).liveTranscription
      ≠ ({ connectedState with isAiThinking := true, liveTranscription := "hel" } : AppState).liveTranscription := by
  refine ⟨rfl, ?_, ?_, ?_⟩ <;> decide

/-- C8 amended: a downlink payload that fails JSON parsing or carries an
unrecognized type tag is discarded with the entire state unchanged (the
handler is total — the try/catch never lets the channel crash); an
`audio_chunk` whose base64 audio is undecodable is likewise discarded
without crashing and without touching the playback queue, the append
machinery or the channel handle — but may mutate the thinking flag, live
transcription and ledger text first. -/
theorem malformed_event_scoped_tolerance :
    (∀ s : AppState, processSSEMessage .malformed s = s ∧
      processSSEMessage .unrecognized s = s) ∧
    (∀ (s : AppState) (llm : Option String) (fail : List Bool),
      (processSSEMessage (.audioChunk .bad llm fail) s).audioQueue = s.audioQueue ∧
      (processSSEMessage (.audioChunk .bad llm fail) s).appendAttempts = s.appendAttempts ∧
      (processSSEMessage (.audioChunk .bad llm fail) s).eventSource = s.eventSource) := by
  exact ⟨fun s => ⟨rfl, rfl⟩, fun s llm fail => ⟨rfl, rfl, rfl⟩⟩

/-- C10: an `audio_chunk` event whose base64 audio decodes to zero bytes
leaves the playback queue unchanged and triggers no append attempt (the
ghost `appendAttempts` counter, bumped on every entry into
`appendAudioChunk`, is unchanged): only chunks of strictly positive
decoded length are enqueued. -/
theorem empty_audio_chunk_no_enqueue (s : AppState) (llm : Option String)
    (fail : List Bool) :
    (processSSEMessage (.audioChunk (.ok []) llm fail) s).audioQueue = s.audioQueue ∧
    (processSSEMessage (.audioChunk (.ok []) llm fail) s).appendAttempts
      = s.appendAttempts := by
  exact ⟨rfl, rfl⟩

/-- C5: the claim that the downlink reconnects at most once per backoff
interval and never after `disconnect()` is FALSE on the code: the 1s
`setTimeout` scheduled by `onerror` is never cancelled and invokes the
`startResponseStream` closure captured when the `EventSource` was created,
whose non-null conversation id survives teardown.  Evaluated at the
failing input: an error on the connected session schedules the backoff
timer; the user disconnects, clearing the id and the stream; the timer
then still fires, finds the ref empty, and opens a fresh downlink keyed to
the torn-down conversation id.  The last conjunct shows a stale timer can
likewise displace a newer session's open stream with one keyed to the dead
id. -/
theorem reconnect_after_teardown :
    sseOnErrorCap ⟨true, some 1, false, ""⟩ connectedState
      = { connectedState with pendingReconnects := 1 } ∧
    (step .disconnect connectedState).conversationId = none ∧
    (step .disconnect connectedState).eventSource = none ∧
    (startResponseStreamCap (some 1) (step .disconnect connectedState)).eventSource
      = some ⟨1, .connecting⟩ ∧
    (startResponseStreamCap (some 1) (step .disconnect connectedState)).opens
      = (step .disconnect connectedState).opens + 1 ∧
    (startResponseStreamCap (some 1)
        { connectedState with conversationId := some 2
                            , eventSource := some ⟨2, .opened⟩ }).eventSource
      = some ⟨1, .connecting⟩ :=
  ⟨rfl, rfl, rfl, rfl, rfl, rfl⟩

/-- C9 counterexample: the `stt_transcript_update` guard tests the
`isAudioPlaying` captured when the `EventSource` was created — `false` on
the canonical path, where the stream is created at connect time before any
playback and never re-initialized while open.  An update arriving while
audio is actually playing therefore passes the guard and mutates both the
live transcription and the thinking flag, refuting the claimed drop at
this concrete input. -/
theorem stt_update_not_dropped_while_playing :
    ({ connectedState with isAudioPlaying := true } : AppState).isAudioPlaying = true ∧
    (processSSEMessageCap ⟨true, some 1, false, ""⟩ (.sttUpdate "hel")
        { connectedState with isAudioPlaying := true }).liveTranscription
      ≠ ({ connectedState with isAudioPlaying := true } : AppState).liveTranscription ∧
    (processSSEMessageCap ⟨true, some 1, false, ""⟩ (.sttUpdate "hel")
        { connectedState with isAudioPlaying := true }).isAiThinking
      ≠ ({ connectedState with isAudioPlaying := true } : AppState).isAiThinking := by
  refine ⟨rfl, ?_, ?_⟩ <;> decide

/-- C9 amended: whether a `stt_transcript_update` is dropped is governed by
the `isAudioPlaying` value captured when the `EventSource` handler was
created, not by the live playback state: if the captured value is true the
event leaves the state unchanged; if it was false — the canonical case —
the event sets the live transcription and raises the thinking flag
regardless of whether audio is playing at arrival time. -/
theorem stt_update_guard_is_captured (env : ESClosure) (s : AppState) (t : String) :
    (env.isAudioPlaying = true → processSSEMessageCap env (.sttUpdate t) s = s) ∧
    (env.isAudioPlaying = false →
      (processSSEMessageCap env (.sttUpdate t) s).liveTranscription = t ∧
      (processSSEMessageCap env (.sttUpdate t) s).isAiThinking = true) := by
  constructor
  · intro h; simp [processSSEMessageCap, h]
  · intro h; simp [processSSEMessageCap, h]

theorem stt_update_guard_is_captured_witness :
    (processSSEMessageCap ⟨true, some 1, true, ""⟩ (.sttUpdate "hel") connectedState
        = connectedState) ∧
    ((processSSEMessageCap ⟨true, some 1, false, ""⟩ (.sttUpdate "hel")
        { connectedState with isAudioPlaying := true }).liveTranscription = "hel" ∧
     (processSSEMessageCap ⟨true, some 1, false, ""⟩ (.sttUpdate "hel")
        { connectedState with isAudioPlaying := true }).isAiThinking = true) :=
  ⟨(stt_update_guard_is_captured ⟨true, some 1, true, ""⟩ connectedState "hel").1 rfl,
   (stt_update_guard_is_captured ⟨true, some 1, false, ""⟩
      { connectedState with isAudioPlaying := true } "hel").2 rfl⟩
